import Mathlib

/-!
Shallow embedding, in Lean 4, of the core logic of the `m3` package
(files `m3/mcp_server.py` and `m3/data_io.py`), together with theorems
settling the specification claims about it.

Conventions of the embedding:
* Python strings are Lean `String`s; helper functions (`pyStrip`, `pyUpper`,
  `pyLower`, `pyContains`, `pyReplace`) model the Python `str` methods
  `strip`, `upper`, `lower`, the `in` operator and `replace` for the ASCII
  texts these claims are about.
* Python code that may raise is modelled with `Except String` at the point
  where the exception can originate; a `try/except` block is a `match` on
  that `Except`.
* External collaborators (the `sqlparse` parser, the network, the
  filesystem, the database driver) are parameters of the embedded
  functions, so every theorem quantifies over their behaviour.
-/

/-! ## Python string primitives -/

/-- Python `str.strip()`: remove whitespace from both ends. -/
def pyStrip (s : String) : String :=
  ⟨((s.data.dropWhile Char.isWhitespace).reverse.dropWhile Char.isWhitespace).reverse⟩

/-- Python `str.upper()` (ASCII letters, which is all the validator compares). -/
def pyUpper (s : String) : String :=
  ⟨s.data.map Char.toUpper⟩

/-- Python `str.lower()` (ASCII letters). -/
def pyLower (s : String) : String :=
  ⟨s.data.map Char.toLower⟩

/-- Does `pat` occur as a contiguous sublist of `s`? -/
def sublistIn (pat : List Char) : List Char → Bool
  | [] => pat.isEmpty
  | c :: rest => pat.isPrefixOf (c :: rest) || sublistIn pat rest

/-- Python `pat in s` on strings (substring containment). -/
def pyContains (s pat : String) : Bool :=
  sublistIn pat.data s.data

/-- Python `s.startswith(pre)` (`String.isPrefixOf`, stated on the
character lists so that it evaluates by `decide`). -/
def strHasPrefix (pre s : String) : Bool :=
  pre.data.isPrefixOf s.data

/-- Fuel-driven worker for `pyReplace`; with `fuel ≥ s.length` it replaces every
non-overlapping occurrence of `pat` left to right, exactly like Python
`str.replace`. -/
def replListF (pat rep : List Char) : Nat → List Char → List Char
  | _, [] => []
  | 0, s => s
  | fuel + 1, c :: rest =>
      if !pat.isEmpty && pat.isPrefixOf (c :: rest) then
        rep ++ replListF pat rep fuel ((c :: rest).drop pat.length)
      else
        c :: replListF pat rep fuel rest

/-- Python `s.replace(pat, rep)` for a non-empty `pat`. -/
def pyReplace (s pat rep : String) : String :=
  ⟨replListF pat.data rep.data s.data.length s.data⟩

/-! ## SQL safety validator (`m3/mcp_server.py`, `_is_safe_query`)

`sqlparse.parse` is modelled as a parameter
`parse : String → Except String (List String)`: applied to the stripped
query text it either raises (`.error e`, the exception text) or returns the
list of the parsed statements, each represented by the string
`statement.get_type()` yields for it (`"SELECT"`, `"INSERT"`, `"UNKNOWN"`, …),
which is the only attribute of a statement the validator reads. -/

/-- The `dangerous_keywords` set of `_is_safe_query` (a Python `set`; iteration
order is unspecified there, a fixed order is chosen here — it only affects
which keyword a rejection reason names, never the verdict). -/
def dangerous_keywords : List String :=
  ["INSERT", "UPDATE", "DELETE", "DROP", "CREATE", "ALTER",
   "TRUNCATE", "REPLACE", "MERGE", "EXEC", "EXECUTE"]

/-- The `injection_patterns` list of `_is_safe_query`, in source order. -/
def injection_patterns : List (String × String) :=
  [("1=1", "Classic injection pattern"),
   ("OR 1=1", "Boolean injection pattern"),
   ("AND 1=1", "Boolean injection pattern"),
   ("OR \x271\x27=\x271\x27", "String injection pattern"),
   ("AND \x271\x27=\x271\x27", "String injection pattern"),
   ("WAITFOR", "Time-based injection"),
   ("SLEEP(", "Time-based injection"),
   ("BENCHMARK(", "Time-based injection"),
   ("LOAD_FILE(", "File access injection"),
   ("INTO OUTFILE", "File write injection"),
   ("INTO DUMPFILE", "File write injection")]

/-- The `suspicious_names` list of `_is_safe_query`, in source order. -/
def suspicious_names : List String :=
  ["PASSWORD", "ADMIN", "USER", "LOGIN", "AUTH", "TOKEN", "CREDENTIAL",
   "SECRET", "KEY", "HASH", "SALT", "SESSION", "COOKIE"]

/-- The keyword scan of `_is_safe_query`:
`if f" {keyword} " in f" {sql_upper} "` for each dangerous keyword, returning
the first hit. -/
def firstKeywordHit (sql_upper : String) : Option String :=
  dangerous_keywords.find? fun kw =>
    pyContains (" " ++ sql_upper ++ " ") (" " ++ kw ++ " ")

/-- The injection-pattern scan of `_is_safe_query`: `if pattern in sql_upper`. -/
def firstPatternHit (sql_upper : String) : Option (String × String) :=
  injection_patterns.find? fun p => pyContains sql_upper p.1

/-- The suspicious-identifier scan of `_is_safe_query`: `if name in sql_upper`. -/
def firstNameHit (sql_upper : String) : Option String :=
  suspicious_names.find? fun n => pyContains sql_upper n

/-- Body of `_is_safe_query` after a successful `sqlparse.parse`:
`parsedTypes` is the list of statement types, `stripped` the stripped query
text (`sql_query.strip()`). Mirrors source lines 39–121 of
`m3/mcp_server.py`. -/
def is_safe_body (parsedTypes : List String) (stripped : String) : Bool × String :=
  if parsedTypes.isEmpty then (false, "Invalid SQL syntax")
  else if parsedTypes.length > 1 then (false, "Multiple statements not allowed")
  else
    let statement_type := parsedTypes.headD ""
    if statement_type ≠ "SELECT" ∧ statement_type ≠ "UNKNOWN" then
      (false, "Only SELECT and PRAGMA queries allowed")
    else
      let sql_upper := pyUpper stripped
      if strHasPrefix "PRAGMA" sql_upper then (true, "Safe PRAGMA statement")
      else if statement_type = "SELECT" then
        match firstKeywordHit sql_upper with
        | some kw => (false, "Write operation not allowed: " ++ kw)
        | none =>
          match firstPatternHit sql_upper with
          | some pd => (false, "Injection pattern detected: " ++ pd.2)
          | none =>
            match firstNameHit sql_upper with
            | some n =>
                (false, "Suspicious identifier detected: " ++ n ++ " (not medical data)")
            | none => (true, "Safe")
      else (true, "Safe")

/-- `_is_safe_query(sql_query)` of `m3/mcp_server.py` (the `internal_tool`
flag is accepted and ignored by the source, so it is left out).  The
whole body runs inside `try: … except Exception as e: return False,
f"Validation error: \x7be\x7d"`; the parse step is the operation that can
raise, so the `except` branch is the `.error` arm. -/
def is_safe_query (parse : String → Except String (List String))
    (sql_query : String) : Bool × String :=
  if sql_query = "" ∨ pyStrip sql_query = "" then (false, "Empty query")
  else
    match parse (pyStrip sql_query) with
    | .error e => (false, "Validation error: " ++ e)
    | .ok types => is_safe_body types (pyStrip sql_query)

/-! ## Download manager (`m3/data_io.py`, `_download_single_file`)

The network and filesystem are modelled by a `DownloadAttempt` record:
`httpOk` is whether `session.get` + `raise_for_status` succeed (an HTTP
error status, or a timeout on the request itself, makes it `false`);
`chunks` are the response chunks received and written before any
interruption; `interrupted` is whether the transfer/write then fails
(`Timeout`, `RequestException` mid-stream or `OSError` on write — the four
`except` branches all fall through to the same cleanup code);
`unlinkOk` is whether `target_filepath.unlink()` would succeed (its own
`except OSError` branch only logs).  The destination file's content is an
`Option (List Nat)` of bytes: `none` when the path does not exist. -/

structure DownloadAttempt where
  httpOk : Bool
  chunks : List (List Nat)
  interrupted : Bool
  unlinkOk : Bool

/-- The failure epilogue of `_download_single_file`:
`if target_filepath.exists(): try: target_filepath.unlink() except OSError: log`. -/
def cleanupTarget (fs : Option (List Nat)) (unlinkOk : Bool) : Option (List Nat) :=
  match fs with
  | none => none
  | some c => if unlinkOk then none else some c

/-- `_download_single_file` of `m3/data_io.py`.  `pre` is the content of the
destination path before the call.  On `httpOk` the `open(target, "wb")`
truncates the file, then the received chunks are appended; an interruption
leaves the concatenation of the chunks written so far, and the epilogue
tries to delete whatever exists at the path before `return False`. -/
def download_single_file (pre : Option (List Nat)) (a : DownloadAttempt) :
    Bool × Option (List Nat) :=
  if !a.httpOk then (false, cleanupTarget pre a.unlinkOk)
  else if a.interrupted then (false, cleanupTarget (some a.chunks.flatten) a.unlinkOk)
  else (true, some a.chunks.flatten)

/-! ## Acquisition orchestrator (`m3/data_io.py`, `_download_dataset_files`) -/

/-- A download task: `(file_url, local_target_path)`, both rendered as
strings. -/
abbrev DlTask := String × String

/-- Lines 156–159 of `m3/data_io.py`:
`sorted(list(set(all_files_to_process)), key=lambda x: x[1])`.
Python's `set` keeps the distinct `(url, path)` pairs in an unspecified
order (`List.dedup` here), and `sorted` is a stable sort on the
destination-path key (`List.insertionSort` here). -/
def uniqueFilesToProcess (tasks : List DlTask) : List DlTask :=
  List.insertionSort (fun a b => a.2 ≤ b.2) tasks.dedup

/-- The download loop of `_download_dataset_files` (lines 165–176): walk the
tasks in order, incrementing `downloaded_count`; `return False` on the first
task whose `_download_single_file` fails.  `ok` is the success of the
download of one task; the second component collects the tasks actually
attempted, in order. -/
def downloadGo (ok : α → Bool) : List α → Nat → Option Nat × List α
  | [], c => (some c, [])
  | t :: ts, c =>
      if ok t then
        let r := downloadGo ok ts (c + 1)
        (r.1, t :: r.2)
      else (none, [t])

/-- The tail of `_download_dataset_files`: run the loop on the deduplicated,
sorted task list and finish with `return downloaded_count ==
len(unique_files_to_process)` (early `return False` is the `none` arm). -/
def download_dataset_files (ok : α → Bool) (tasks : List α) : Bool × List α :=
  match downloadGo ok tasks 0 with
  | (some c, att) => (c == tasks.length, att)
  | (none, att) => (false, att)

/-! ## ETL (`m3/data_io.py`, `_etl_csv_collection_to_sqlite`) -/

/-- A source file is its path relative to `csv_source_dir`, as the list of
its path segments (`relative_path.parts`). -/
abbrev EtlFile := List String

/-- Table-name derivation (lines 230–240):
`"_".join(part.lower() for part in relative_path.parts)`, then
`.replace(".csv.gz", "").replace("-", "_").replace(".", "_")`. -/
def tableNameOf (relative_path : EtlFile) : String :=
  pyReplace (pyReplace (pyReplace
    (String.intercalate "_" (relative_path.map pyLower)) ".csv.gz" "") "-" "_") "." "_"

/-- The SQLite database, as the map from table name to the file whose data
the table holds. -/
abbrev EtlDb := String → Option EtlFile

/-- `df.write_database(..., if_table_exists="replace")`: the table named `t`
now holds (exactly) the data of `f`. -/
def dbPut (db : EtlDb) (t : String) (f : EtlFile) : EtlDb :=
  fun t' => if t' = t then some f else db t'

/-- The per-file loop of `_etl_csv_collection_to_sqlite` (lines 232–272):
`loadOk f` is whether parsing and writing `f` succeeds (the `try` body);
on success the table is written and `successfully_loaded_count`
incremented, on failure the file is appended to `files_with_errors` and the
loop continues. -/
def etlGo (loadOk : EtlFile → Bool) :
    List EtlFile → EtlDb → Nat → List EtlFile → Nat × List EtlFile × EtlDb
  | [], db, c, errs => (c, errs, db)
  | f :: fs, db, c, errs =>
      if loadOk f then etlGo loadOk fs (dbPut db (tableNameOf f) f) (c + 1) errs
      else etlGo loadOk fs db c (errs ++ [f])

/-- The three-way final classification of the ETL run (lines 283–299). -/
inductive EtlReport where
  | allLoaded
  | someLoaded
  | noneLoaded
deriving DecidableEq

/-- `if successfully_loaded_count == len(csv_file_paths)` → all loaded;
`elif successfully_loaded_count > 0` → partially loaded; else none. -/
def etlReport (loaded total : Nat) : EtlReport :=
  if loaded = total then .allLoaded
  else if loaded > 0 then .someLoaded
  else .noneLoaded

/-- The boolean each branch returns: `True` for the all-loaded branch,
`False` for the other two. -/
def etlReportResult : EtlReport → Bool
  | .allLoaded => true
  | _ => false

structure EtlResult where
  result : Bool
  loaded : Nat
  errors : List EtlFile
  report : EtlReport
  db : EtlDb

/-- `_etl_csv_collection_to_sqlite` of `m3/data_io.py`: `files` is
`list(csv_source_dir.rglob("*.csv.gz"))` as relative paths; an empty find
is an early `return False` (line 221); otherwise the per-file loop runs and
the final classification decides the returned boolean. -/
def etl_csv_collection_to_sqlite (loadOk : EtlFile → Bool) (files : List EtlFile) :
    EtlResult :=
  if files.isEmpty then ⟨false, 0, [], .noneLoaded, fun _ => none⟩
  else
    let r := etlGo loadOk files (fun _ => none) 0 []
    let rep := etlReport r.1 files.length
    ⟨etlReportResult rep, r.1, r.2.1, rep, r.2.2⟩

/-! ## Query execution router (`m3/mcp_server.py`,
`_execute_sqlite_query` / `_execute_bigquery_query`)

The backend is a parameter `run : String → Except String (List ρ)`: it
either raises (the `except` branches of both functions re-raise, so errors
pass through) or returns the result rows of the query; `toDisplay` models
`df.to_string(index=False)` on a list of rows. -/

/-- The shared result-normalization tail of both query executors:
`if df.empty: return "No results found"`, then the 50-row display
truncation with the total-row-count annotation. -/
def normalizeQueryResult (toDisplay : List ρ → String) (df : List ρ) : String :=
  if df.isEmpty then "No results found"
  else if df.length > 50 then
    toDisplay (df.take 50) ++ "\n... (" ++ toString df.length ++
      " total rows, showing first 50)"
  else toDisplay df

/-- `_execute_sqlite_query`: run the query on the connection, normalize the
result; any exception is re-raised to the caller. -/
def execute_sqlite_query (run : String → Except String (List ρ))
    (toDisplay : List ρ → String) (sql_query : String) : Except String String :=
  match run sql_query with
  | .error e => .error e
  | .ok df => .ok (normalizeQueryResult toDisplay df)

/-- `_execute_bigquery_query`: identical post-query logic on the BigQuery
client's dataframe. -/
def execute_bigquery_query (run : String → Except String (List ρ))
    (toDisplay : List ρ → String) (sql_query : String) : Except String String :=
  match run sql_query with
  | .error e => .error e
  | .ok df => .ok (normalizeQueryResult toDisplay df)

/-! ## Convenience tools (`m3/mcp_server.py`, `_validate_limit`,
`get_icu_stays`, `get_lab_results`, `get_race_distribution`)

The process-wide backend and `_execute_query_internal` are a `ToolEnv`
parameter.  Each tool returns, besides its result string, the list of
queries it handed to `_execute_query_internal`, so "executes no query" is
the statement that this list is empty. -/

/-- A single-quote character, used by the SQL templates below. -/
def sqlQuote : String := ⟨[Char.ofNat 39]⟩

structure ToolEnv where
  backend : String
  execQuery : String → String

/-- `_validate_limit(limit)`: `isinstance(limit, int) and 0 < limit <= 1000`
(the argument is typed `Int` here, so the `isinstance` conjunct is the
typing). -/
def validate_limit (limit : Int) : Bool :=
  decide (0 < limit) && decide (limit ≤ 1000)

/-- The error string all three tools return on an invalid limit. -/
def limitErrMsg : String :=
  "Error: Invalid limit. Must be a positive integer between 1 and 10000."

/-- The workflow-guidance message wrapped around a failed convenience-tool
result (the shared f-string of the three tools). -/
def workflowGuidance (result : String) : String :=
  "❌ **Convenience function failed:** " ++ result ++
  "\n\n💡 **For reliable results, use the proper workflow:**\n" ++
  "1. `get_database_schema()` ← See actual table names\n" ++
  "2. `get_table_info(" ++ sqlQuote ++ "table_name" ++ sqlQuote ++
  ")` ← Understand structure\n" ++
  "3. `execute_mimic_query(" ++ sqlQuote ++ "your_sql" ++ sqlQuote ++
  ")` ← Use exact names\n\nThis ensures compatibility across different MIMIC-IV setups."

/-- The shared epilogue: `if "error" in result.lower() or "not found" in
result.lower():` return the guidance text, else the result. -/
def convenienceEpilogue (result : String) : String :=
  if pyContains (pyLower result) "error" || pyContains (pyLower result) "not found" then
    workflowGuidance result
  else result

/-- Python truthiness of an optional `int` argument (`if patient_id:`). -/
def pyTruthyInt : Option Int → Bool
  | none => false
  | some p => p != 0

/-- Python truthiness of an optional `str` argument (`if lab_item:`). -/
def pyTruthyStr : Option String → Bool
  | none => false
  | some s => s ≠ ""

/-- `get_icu_stays(patient_id, limit)` (lines 536–578 of
`m3/mcp_server.py`). -/
def get_icu_stays (env : ToolEnv) (patient_id : Option Int) (limit : Int) :
    String × List String :=
  if !validate_limit limit then (limitErrMsg, [])
  else
    let icustays_table :=
      if env.backend = "sqlite" then "icu_icustays"
      else "`physionet-data.mimiciv_3_1_icu.icustays`"
    let query :=
      if pyTruthyInt patient_id then
        "SELECT * FROM " ++ icustays_table ++ " WHERE subject_id = " ++
          toString (patient_id.getD 0)
      else
        "SELECT * FROM " ++ icustays_table ++ " LIMIT " ++ toString limit
    (convenienceEpilogue (env.execQuery query), [query])

/-- `get_lab_results(patient_id, lab_item, limit)` (lines 581–641 of
`m3/mcp_server.py`); `lab_item.replace("'", "''")` escapes single quotes. -/
def get_lab_results (env : ToolEnv) (patient_id : Option Int)
    (lab_item : Option String) (limit : Int) : String × List String :=
  if !validate_limit limit then (limitErrMsg, [])
  else
    let labevents_table :=
      if env.backend = "sqlite" then "hosp_labevents"
      else "`physionet-data.mimiciv_3_1_hosp.labevents`"
    let conditions :=
      (if pyTruthyInt patient_id then
        ["subject_id = " ++ toString (patient_id.getD 0)] else []) ++
      (if pyTruthyStr lab_item then
        ["value LIKE " ++ sqlQuote ++ "%" ++
          pyReplace (lab_item.getD "") sqlQuote (sqlQuote ++ sqlQuote) ++
          "%" ++ sqlQuote]
       else [])
    let base_query := "SELECT * FROM " ++ labevents_table
    let base_query :=
      if conditions.isEmpty then base_query
      else base_query ++ " WHERE " ++ String.intercalate " AND " conditions
    let query := base_query ++ " LIMIT " ++ toString limit
    (convenienceEpilogue (env.execQuery query), [query])

/-- `get_race_distribution(limit)` (lines 644–688 of `m3/mcp_server.py`). -/
def get_race_distribution (env : ToolEnv) (limit : Int) : String × List String :=
  if !validate_limit limit then (limitErrMsg, [])
  else
    let admissions_table :=
      if env.backend = "sqlite" then "hosp_admissions"
      else "`physionet-data.mimiciv_3_1_hosp.admissions`"
    let query :=
      "SELECT race, COUNT(*) as count FROM " ++ admissions_table ++
      " GROUP BY race ORDER BY count DESC LIMIT " ++ toString limit
    (convenienceEpilogue (env.execQuery query), [query])

/-- A concrete row formatter (used by witnesses): one row per line. -/
def rowsToDisplay (rows : List Nat) : String :=
  String.intercalate "\n" (rows.map toString)

instance dlTaskLeTotal : IsTotal DlTask (fun a b => a.2 ≤ b.2) :=
  ⟨fun a b => le_total a.2 b.2⟩

instance dlTaskLeTrans : IsTrans DlTask (fun a b => a.2 ≤ b.2) :=
  ⟨fun _ _ _ h1 h2 => le_trans h1 h2⟩

/-! ## Helper lemmas -/

lemma optOrNone (o : Option α) : o.or none = o := by cases o <;> rfl

lemma getLast?_eq_or : ∀ (l : List α) (a : α), (a :: l).getLast? = l.getLast?.or (some a)
  | [], a => by simp
  | x :: xs, a => by
      rw [List.getLast?_cons_cons, getLast?_eq_or xs x, Option.or_assoc]
      rfl

/-- Under the hypotheses of a single SELECT-typed statement that is not
PRAGMA-shaped, `is_safe_query` reduces to the three scans. -/
lemma is_safe_query_select_eq (parse : String → Except String (List String))
    (sql_query : String)
    (hne : sql_query ≠ "") (hsne : pyStrip sql_query ≠ "")
    (hparse : parse (pyStrip sql_query) = Except.ok ["SELECT"])
    (hnp : strHasPrefix "PRAGMA" (pyUpper (pyStrip sql_query)) = false) :
    is_safe_query parse sql_query =
      (match firstKeywordHit (pyUpper (pyStrip sql_query)) with
       | some kw => (false, "Write operation not allowed: " ++ kw)
       | none =>
         match firstPatternHit (pyUpper (pyStrip sql_query)) with
         | some pd => (false, "Injection pattern detected: " ++ pd.2)
         | none =>
           match firstNameHit (pyUpper (pyStrip sql_query)) with
           | some n =>
               (false, "Suspicious identifier detected: " ++ n ++ " (not medical data)")
           | none => (true, "Safe")) := by
  simp [is_safe_query, is_safe_body, hne, hsne, hparse, hnp]

/-- Characterization of the download loop: the returned counter is `some`
(final count) exactly when every task succeeds, and the attempted tasks are
the successful prefix plus the first failing task, if any. -/
lemma downloadGo_spec (ok : α → Bool) : ∀ (ts : List α) (c : Nat),
    downloadGo ok ts c =
      (if ts.all ok then some (c + ts.length) else none,
       ts.takeWhile ok ++ (ts.dropWhile ok).take 1)
  | [], c => by simp [downloadGo]
  | t :: ts, c => by
      by_cases h : ok t
      · simp [downloadGo, h, downloadGo_spec ok ts (c + 1), List.takeWhile_cons,
          List.dropWhile_cons, Nat.add_assoc, Nat.add_comm 1 ts.length]
      · simp [downloadGo, h, List.takeWhile_cons, List.dropWhile_cons]

/-- The ETL loop counts exactly the successfully loaded files and collects
exactly the failing ones, in order. -/
lemma etlGo_count_errors (loadOk : EtlFile → Bool) :
    ∀ (fs : List EtlFile) (db : EtlDb) (c : Nat) (errs : List EtlFile),
      (etlGo loadOk fs db c errs).1 = c + (fs.filter loadOk).length ∧
      (etlGo loadOk fs db c errs).2.1 = errs ++ fs.filter (fun f => !loadOk f)
  | [], db, c, errs => by simp [etlGo]
  | f :: fs, db, c, errs => by
      by_cases h : loadOk f
      · have ih := etlGo_count_errors loadOk fs (dbPut db (tableNameOf f) f) (c + 1) errs
        simp [etlGo, h, ih.1, ih.2, Nat.add_assoc, Nat.add_comm 1 _]
      · have ih := etlGo_count_errors loadOk fs db c (errs ++ [f])
        simp [etlGo, h, ih.1, ih.2]

/-- After the ETL loop, table `t` holds the data of the last successfully
loaded file whose derived name is `t` (later loads replace earlier ones). -/
lemma etlGo_db (loadOk : EtlFile → Bool) :
    ∀ (fs : List EtlFile) (db : EtlDb) (c : Nat) (errs : List EtlFile) (t : String),
      (etlGo loadOk fs db c errs).2.2 t =
        ((fs.filter (fun f => loadOk f && (tableNameOf f == t))).getLast?).or (db t)
  | [], db, c, errs, t => by simp [etlGo]
  | f :: fs, db, c, errs, t => by
      by_cases hl : loadOk f
      · by_cases ht : tableNameOf f = t
        · have ih := etlGo_db loadOk fs (dbPut db (tableNameOf f) f) (c + 1) errs t
          rw [etlGo, if_pos hl, ih]
          have hfil : (f :: fs).filter (fun f => loadOk f && (tableNameOf f == t)) =
              f :: fs.filter (fun f => loadOk f && (tableNameOf f == t)) := by
            simp [List.filter_cons, hl, ht]
          rw [hfil, getLast?_eq_or, Option.or_assoc]
          have hput : dbPut db (tableNameOf f) f t = some f := by
            simp [dbPut, ht]
          rw [hput]
          rfl
        · have ih := etlGo_db loadOk fs (dbPut db (tableNameOf f) f) (c + 1) errs t
          rw [etlGo, if_pos hl, ih]
          have hfil : (f :: fs).filter (fun f => loadOk f && (tableNameOf f == t)) =
              fs.filter (fun f => loadOk f && (tableNameOf f == t)) := by
            simp [List.filter_cons, hl, ht]
          have hput : dbPut db (tableNameOf f) f t = db t := by
            simp [dbPut]
            intro he
            exact absurd he.symm ht
          rw [hfil, hput]
      · have ih := etlGo_db loadOk fs db c (errs ++ [f]) t
        rw [etlGo, if_neg hl, ih]
        have hfil : (f :: fs).filter (fun f => loadOk f && (tableNameOf f == t)) =
            fs.filter (fun f => loadOk f && (tableNameOf f == t)) := by
          simp [List.filter_cons, hl]
        rw [hfil]

/-- The final ETL branch returns `True` exactly when every found file was
loaded. -/
lemma etlReportResult_true_iff (l t : Nat) :
    etlReportResult (etlReport l t) = true ↔ l = t := by
  unfold etlReport etlReportResult
  by_cases h : l = t
  · simp [h]
  · by_cases h2 : l > 0 <;> simp [h, h2]

lemma filter_length_eq_iff_all (p : α → Bool) (l : List α) :
    (l.filter p).length = l.length ↔ l.all p = true := by
  constructor
  · intro h
    have hsub := (List.filter_sublist l (p := p)).eq_of_length h
    rw [List.all_eq_true]
    intro a ha
    exact List.of_mem_filter (hsub ▸ ha)
  · intro h
    rw [List.filter_eq_self.mpr (by rw [List.all_eq_true] at h; exact h)]

/-! ## Claim theorems -/

/-- Claim C1 (code bug exhibited). The claim — matching the validator's own
rejection message "Only SELECT and PRAGMA queries allowed" — says an
unclassified (UNKNOWN-typed) single statement whose text does not begin with
PRAGMA is REJECTED.  The code instead falls through its final
`return True, "Safe"`: here an `ATTACH DATABASE` statement (which `sqlparse`
types as UNKNOWN, since ATTACH is neither a DML nor a DDL keyword for it)
is accepted as safe. -/
theorem unknown_type_statement_accepted_as_safe :
    is_safe_query (fun _ => Except.ok ["UNKNOWN"]) "ATTACH DATABASE file AS evil" =
      (true, "Safe") := by
  rfl

/-- Claim C2 (counterexample). The claim says a SELECT statement is rejected
whenever one of the eleven write/DDL keywords appears as a whole token.  In
`SELECT a FROM t WHERE b=DELETE`, `DELETE` is a whole token (delimited by
`=` on the left and the end of the text on the right), yet the validator
accepts the query: the scan only matches a keyword surrounded by spaces. -/
theorem keyword_next_to_punctuation_not_rejected :
    is_safe_query (fun _ => Except.ok ["SELECT"])
      "SELECT a FROM t WHERE b=DELETE" = (true, "Safe") := by
  rfl

/-- Claim C2 (amended). For a single statement classified SELECT whose text
is not PRAGMA-shaped, the verdict is REJECTED exactly when one of the three
scans hits; in particular it is REJECTED whenever one of the eleven
write/DDL keywords occurs *surrounded by spaces* in the uppercased text
padded with one space at each end (so occurrences adjacent to punctuation,
or inside a longer identifier, are not caught by the keyword rule). -/
theorem select_keyword_scan_is_space_delimited
    (parse : String → Except String (List String)) (sql_query : String)
    (hne : sql_query ≠ "") (hsne : pyStrip sql_query ≠ "")
    (hparse : parse (pyStrip sql_query) = Except.ok ["SELECT"])
    (hnp : strHasPrefix "PRAGMA" (pyUpper (pyStrip sql_query)) = false) :
    ((is_safe_query parse sql_query).1 = false ↔
      ((firstKeywordHit (pyUpper (pyStrip sql_query))).isSome ∨
       (firstPatternHit (pyUpper (pyStrip sql_query))).isSome ∨
       (firstNameHit (pyUpper (pyStrip sql_query))).isSome))
    ∧ ((∃ kw ∈ dangerous_keywords,
          pyContains (" " ++ pyUpper (pyStrip sql_query) ++ " ")
            (" " ++ kw ++ " ") = true) →
        (is_safe_query parse sql_query).1 = false) := by
  rw [is_safe_query_select_eq parse sql_query hne hsne hparse hnp]
  constructor
  · cases h1 : firstKeywordHit (pyUpper (pyStrip sql_query)) with
    | some kw => simp
    | none =>
      cases h2 : firstPatternHit (pyUpper (pyStrip sql_query)) with
      | some pd => simp [h1]
      | none =>
        cases h3 : firstNameHit (pyUpper (pyStrip sql_query)) with
        | some n => simp [h1, h2]
        | none => simp [h1, h2, h3]
  · intro hex
    have hs : (firstKeywordHit (pyUpper (pyStrip sql_query))).isSome := by
      rw [firstKeywordHit, List.find?_isSome]
      exact hex
    cases h1 : firstKeywordHit (pyUpper (pyStrip sql_query)) with
    | some kw => simp
    | none => rw [h1] at hs; simp at hs

/-- Claim C2 witness: a space-delimited `DROP` inside a SELECT is rejected. -/
theorem select_keyword_scan_is_space_delimited_witness :
    (is_safe_query (fun _ => Except.ok ["SELECT"]) "SELECT DROP FROM t").1 = false :=
  (select_keyword_scan_is_space_delimited (fun _ => Except.ok ["SELECT"])
      "SELECT DROP FROM t" (by decide) (by decide) rfl (by decide)).2
    ⟨"DROP", by decide, by decide⟩

/-- Claim C3. Validation never propagates an exception: when the parse step
raises `e` on a non-empty query, `_is_safe_query` returns the pair
`(False, "Validation error: " ++ e)` to its caller. -/
theorem validator_converts_exception_to_rejected
    (parse : String → Except String (List String)) (sql e : String)
    (hne : sql ≠ "") (hsne : pyStrip sql ≠ "")
    (hp : parse (pyStrip sql) = Except.error e) :
    is_safe_query parse sql = (false, "Validation error: " ++ e) := by
  simp [is_safe_query, hne, hsne, hp]

/-- Claim C3 witness: a parser that raises "boom" yields the REJECTED pair. -/
theorem validator_converts_exception_to_rejected_witness :
    is_safe_query (fun _ => Except.error "boom") "SELECT 1" =
      (false, "Validation error: boom") :=
  validator_converts_exception_to_rejected (fun _ => Except.error "boom")
    "SELECT 1" "boom" (by decide) (by decide) rfl

/-- Claim C4. For every task list (in particular the sorted, deduplicated
one the orchestrator builds), the download run attempts exactly the
successful prefix plus the first failing task (fail-fast, in list order),
and the run's boolean result is success exactly when every task succeeds. -/
theorem acquisition_fail_fast_all_or_nothing (ok : α → Bool) (tasks : List α) :
    download_dataset_files ok tasks =
      (tasks.all ok, tasks.takeWhile ok ++ (tasks.dropWhile ok).take 1) := by
  unfold download_dataset_files
  rw [downloadGo_spec]
  by_cases h : tasks.all ok
  · simp [h]
  · simp [h]

/-- Claim C5 (counterexample). The claim says tasks are deduplicated by
destination path, so no two executed tasks share one.  Two tasks with
distinct URLs but the same destination path both survive
`set(...)` (which deduplicates by the whole pair), and both appear in the
sorted task list. -/
theorem duplicate_destination_paths_survive_dedup :
    ¬ (uniqueFilesToProcess [("u1", "p"), ("u2", "p")]).Pairwise
        (fun a b => a.2 ≠ b.2) := by
  intro h
  have he : uniqueFilesToProcess [("u1", "p"), ("u2", "p")] =
      [("u1", "p"), ("u2", "p")] := by
    unfold uniqueFilesToProcess
    rw [List.dedup_cons_of_not_mem (by decide), List.dedup_cons_of_not_mem (by decide),
      List.dedup_nil]
    simp [List.insertionSort, List.orderedInsert]
  rw [he] at h
  rcases List.pairwise_cons.mp h with ⟨h1, _⟩
  exact h1 ("u2", "p") (by simp) rfl

/-- Claim C5 (amended). The task list is deduplicated by the whole
`(url, destination)` pair and stably sorted by destination path: the result
is sorted by destination, contains no duplicate pair, and holds exactly the
discovered tasks — so rebuilding it from the same discovered set yields the
same list, but tasks with distinct URLs may share a destination path. -/
theorem task_list_pair_dedup_and_sort_by_destination (tasks : List DlTask) :
    (uniqueFilesToProcess tasks).Sorted (fun a b => a.2 ≤ b.2)
    ∧ (uniqueFilesToProcess tasks).Nodup
    ∧ (∀ t, t ∈ uniqueFilesToProcess tasks ↔ t ∈ tasks) := by
  refine ⟨List.sorted_insertionSort _ _, ?_, ?_⟩
  · exact (List.perm_insertionSort _ _).symm.nodup (List.nodup_dedup tasks)
  · intro t
    unfold uniqueFilesToProcess
    rw [(List.perm_insertionSort _ _).mem_iff, List.mem_dedup]

/-- Claim C6. On a non-empty file set the ETL processes every file (the
success count and error list together account for all of them, regardless
of earlier failures); the aggregate result is success iff every file
loads; a run with at least one success and at least one failure is
classified as partially loaded with a failure result; and a run with zero
successes fails. -/
theorem etl_processes_all_files_success_iff_all_loaded
    (loadOk : EtlFile → Bool) (files : List EtlFile) (hne : files ≠ []) :
    ((etl_csv_collection_to_sqlite loadOk files).result = true ↔
      files.all loadOk = true)
    ∧ (etl_csv_collection_to_sqlite loadOk files).loaded =
        (files.filter loadOk).length
    ∧ (etl_csv_collection_to_sqlite loadOk files).errors =
        files.filter (fun f => !loadOk f)
    ∧ (((∃ f ∈ files, loadOk f = true) ∧ (∃ f ∈ files, loadOk f = false)) →
        (etl_csv_collection_to_sqlite loadOk files).report = EtlReport.someLoaded ∧
        (etl_csv_collection_to_sqlite loadOk files).result = false)
    ∧ ((∀ f ∈ files, loadOk f = false) →
        (etl_csv_collection_to_sqlite loadOk files).result = false) := by
  have hie : files.isEmpty = false := by
    rw [List.isEmpty_eq_false]
    exact hne
  have hcount := etlGo_count_errors loadOk files (fun _ => none) 0 []
  unfold etl_csv_collection_to_sqlite
  rw [hie]
  simp only [Bool.false_eq_true, if_false, hcount.1, hcount.2, Nat.zero_add,
    List.nil_append]
  have hres : ∀ c, etlReportResult (etlReport c files.length) = true ↔
      c = files.length :=
    fun c => etlReportResult_true_iff c files.length
  refine ⟨?_, trivial, trivial, ?_, ?_⟩
  · rw [hres, filter_length_eq_iff_all]
  · rintro ⟨⟨f1, hf1, hok1⟩, ⟨f2, hf2, hok2⟩⟩
    have hpos : 0 < (files.filter loadOk).length := by
      apply List.length_pos.mpr
      intro hnil
      have hm : f1 ∈ files.filter loadOk := List.mem_filter.mpr ⟨hf1, hok1⟩
      rw [hnil] at hm
      exact absurd hm (List.not_mem_nil f1)
    have hneq : (files.filter loadOk).length ≠ files.length := by
      intro h
      have hall := (filter_length_eq_iff_all loadOk files).mp h
      rw [List.all_eq_true] at hall
      rw [hall f2 hf2] at hok2
      exact absurd hok2 (by simp)
    constructor
    · unfold etlReport
      rw [if_neg hneq, if_pos hpos]
    · unfold etlReport etlReportResult
      rw [if_neg hneq, if_pos hpos]
  · intro hall
    have hzero : (files.filter loadOk).length = 0 := by
      rw [List.length_eq_zero, List.filter_eq_nil_iff]
      intro a ha
      rw [hall a ha]
      simp
    have hneq : (files.filter loadOk).length ≠ files.length := by
      rw [hzero]
      intro h
      have := List.length_pos.mpr hne
      omega
    unfold etlReport etlReportResult
    rw [if_neg hneq, hzero]
    simp

/-- Claim C6 witness: three files with the middle one failing give a
partially-loaded report, a failure result and two loaded files. -/
theorem etl_processes_all_files_success_iff_all_loaded_witness :
    (etl_csv_collection_to_sqlite (fun f => f.length == 2)
      [["hosp", "a.csv.gz"], ["bad.csv.gz"], ["icu", "c.csv.gz"]]).report =
        EtlReport.someLoaded
    ∧ (etl_csv_collection_to_sqlite (fun f => f.length == 2)
      [["hosp", "a.csv.gz"], ["bad.csv.gz"], ["icu", "c.csv.gz"]]).result = false
    ∧ (etl_csv_collection_to_sqlite (fun f => f.length == 2)
      [["hosp", "a.csv.gz"], ["bad.csv.gz"], ["icu", "c.csv.gz"]]).loaded = 2 := by
  have h := etl_processes_all_files_success_iff_all_loaded (fun f => f.length == 2)
    [["hosp", "a.csv.gz"], ["bad.csv.gz"], ["icu", "c.csv.gz"]] (by decide)
  have hp := h.2.2.2.1
    ⟨⟨["hosp", "a.csv.gz"], by decide, by decide⟩,
     ⟨["bad.csv.gz"], by decide, by decide⟩⟩
  exact ⟨hp.1, hp.2, h.2.1.trans (by decide)⟩

/-- Claim C7 (counterexample). The claim says two distinct files of one
dataset normalizing to the same table name are flagged as a naming
collision / configuration error.  The code has no such check:
`hosp/admissions.csv.gz` and `hosp/Admissions.csv.gz` both normalize to
`hosp_admissions`, the run reports full success with no error entry, and
the table silently holds the second file's data. -/
theorem table_name_collision_is_silent_overwrite :
    tableNameOf ["hosp", "admissions.csv.gz"] = "hosp_admissions" ∧
    tableNameOf ["hosp", "Admissions.csv.gz"] = "hosp_admissions" ∧
    (["hosp", "admissions.csv.gz"] : EtlFile) ≠ ["hosp", "Admissions.csv.gz"] ∧
    (etl_csv_collection_to_sqlite (fun _ => true)
      [["hosp", "admissions.csv.gz"], ["hosp", "Admissions.csv.gz"]]).result = true ∧
    (etl_csv_collection_to_sqlite (fun _ => true)
      [["hosp", "admissions.csv.gz"], ["hosp", "Admissions.csv.gz"]]).errors = [] ∧
    (etl_csv_collection_to_sqlite (fun _ => true)
      [["hosp", "admissions.csv.gz"], ["hosp", "Admissions.csv.gz"]]).db
        "hosp_admissions" = some ["hosp", "Admissions.csv.gz"] := by
  decide

/-- Claim C7 (amended). Table names are derived deterministically by the
stated formula (`tableNameOf`), and colliding names are not flagged: the
error list holds exactly the files whose load failed (never a collision
entry), and each table ends up holding the data of the *last* successfully
loaded file whose derived name matches — a later file silently replaces an
earlier one. -/
theorem etl_table_holds_last_loaded_file
    (loadOk : EtlFile → Bool) (files : List EtlFile) :
    (∀ t, (etl_csv_collection_to_sqlite loadOk files).db t =
        (files.filter (fun f => loadOk f && (tableNameOf f == t))).getLast?)
    ∧ (etl_csv_collection_to_sqlite loadOk files).errors =
        files.filter (fun f => !loadOk f) := by
  unfold etl_csv_collection_to_sqlite
  by_cases h : files = []
  · subst h
    simp
  · have hie : files.isEmpty = false := by
      rw [List.isEmpty_eq_false]
      exact h
    rw [hie]
    simp only [Bool.false_eq_true, if_false]
    refine ⟨fun t => ?_, (etlGo_count_errors loadOk files (fun _ => none) 0 []).2⟩
    rw [etlGo_db loadOk files (fun _ => none) 0 [] t, optOrNone]

/-- Claim C8 (counterexample). The claim says that after a failed download
the destination path never holds a truncated file.  When the transfer is
interrupted after one chunk and the subsequent `unlink` itself fails with
an `OSError` (which the code only logs), the truncated file remains while
failure is reported. -/
theorem failed_unlink_leaves_partial_file :
    (download_single_file none ⟨true, [[1]], true, false⟩).1 = false ∧
    (download_single_file none ⟨true, [[1]], true, false⟩).2 = some [1] := by
  decide

/-- Claim C8 (amended). On any failure (HTTP error, timeout, network or
write error) the manager reports failure and attempts to delete the
destination file; provided the deletion itself succeeds, the destination
path holds no file after a failed download, and the download succeeds
exactly when the response was OK and the transfer ran uninterrupted. -/
theorem failed_download_deletes_partial_file_when_unlink_succeeds
    (pre : Option (List Nat)) (a : DownloadAttempt) (hu : a.unlinkOk = true) :
    ((download_single_file pre a).1 = false → (download_single_file pre a).2 = none)
    ∧ ((download_single_file pre a).1 = true ↔
        a.httpOk = true ∧ a.interrupted = false) := by
  unfold download_single_file cleanupTarget
  rcases a with ⟨hok, chunks, intr, uok⟩
  simp only at hu
  subst hu
  cases hok <;> cases intr <;> cases pre <;> simp

/-- Claim C8 witness: a failed request over a pre-existing file with a
working unlink leaves no file behind. -/
theorem failed_download_deletes_partial_file_when_unlink_succeeds_witness :
    (download_single_file (some [9]) ⟨false, [], false, true⟩).2 = none :=
  (failed_download_deletes_partial_file_when_unlink_succeeds
    (some [9]) ⟨false, [], false, true⟩ rfl).1 (by decide)

/-- Claim C9 (counterexample). The claim says an empty result set returns
the literal "no results" sentinel string; the sentinel the code returns is
the string "No results found", which differs from the quoted literal. -/
theorem empty_result_sentinel_text :
    execute_sqlite_query (fun _ => Except.ok ([] : List Nat)) rowsToDisplay
      "SELECT 1" = Except.ok "No results found" ∧
    "No results found" ≠ "no results" := by
  constructor
  · rfl
  · decide

/-- Claim C9 (amended). Both execution strategies normalize a successful
result identically: an empty result set yields the sentinel string
"No results found"; more than 50 rows yield the first 50 formatted rows
plus the annotation carrying the true total row count; 1 to 50 rows are
returned formatted in full with no annotation. -/
theorem query_result_normalization_rules {ρ : Type}
    (run : String → Except String (List ρ))
    (toDisplay : List ρ → String) (q : String) (df : List ρ)
    (h : run q = Except.ok df) :
    execute_sqlite_query run toDisplay q =
      Except.ok (normalizeQueryResult toDisplay df)
    ∧ execute_bigquery_query run toDisplay q =
      Except.ok (normalizeQueryResult toDisplay df)
    ∧ (df.isEmpty = true → normalizeQueryResult toDisplay df = "No results found")
    ∧ (df.length > 50 → normalizeQueryResult toDisplay df =
        toDisplay (df.take 50) ++ "\n... (" ++ toString df.length ++
          " total rows, showing first 50)")
    ∧ (1 ≤ df.length → df.length ≤ 50 →
        normalizeQueryResult toDisplay df = toDisplay df) := by
  refine ⟨by simp [execute_sqlite_query, h], by simp [execute_bigquery_query, h],
    ?_, ?_, ?_⟩
  · intro he
    simp [normalizeQueryResult, he]
  · intro hgt
    have hni : df.isEmpty = false := by
      rw [List.isEmpty_eq_false]
      intro hc
      subst hc
      simp at hgt
    simp [normalizeQueryResult, hni, hgt]
  · intro h1 h50
    have hni : df.isEmpty = false := by
      rw [List.isEmpty_eq_false]
      intro hc
      subst hc
      simp at h1
    have hng : ¬ df.length > 50 := by omega
    simp [normalizeQueryResult, hni, hng]

set_option maxRecDepth 10000 in
/-- Claim C9 witness: a 200-row result is truncated to the first 50
formatted rows with a "200 total rows" annotation. -/
theorem query_result_normalization_rules_witness :
    execute_sqlite_query (fun _ => Except.ok (List.range 200)) rowsToDisplay "q" =
      Except.ok (normalizeQueryResult rowsToDisplay (List.range 200))
    ∧ (List.range 200).length > 50
    ∧ normalizeQueryResult rowsToDisplay (List.range 200) =
        rowsToDisplay ((List.range 200).take 50) ++
          "\n... (200 total rows, showing first 50)" := by
  have h := query_result_normalization_rules (fun _ => Except.ok (List.range 200))
    rowsToDisplay "q" (List.range 200) rfl
  refine ⟨h.1, by norm_num [List.length_range],
    (h.2.2.2.1 (by norm_num [List.length_range])).trans ?_⟩
  decide

/-- Claim C10. Whenever the limit fails `_validate_limit` (an integer with
`0 < limit ≤ 1000`), each of the three convenience tools returns the fixed
error string and hands no query to the execution router; the enforced upper
bound is 1000 while the error text names the range "between 1 and
10000". -/
theorem limit_validation_rejects_and_message_mismatch
    (env : ToolEnv) (patient_id : Option Int) (lab_item : Option String)
    (limit : Int) (h : validate_limit limit = false) :
    get_icu_stays env patient_id limit = (limitErrMsg, [])
    ∧ get_lab_results env patient_id lab_item limit = (limitErrMsg, [])
    ∧ get_race_distribution env limit = (limitErrMsg, [])
    ∧ validate_limit 1000 = true
    ∧ validate_limit 1001 = false
    ∧ validate_limit 10000 = false
    ∧ pyContains limitErrMsg "between 1 and 10000" = true := by
  refine ⟨?_, ?_, ?_, by decide, by decide, by decide, by decide⟩ <;>
    simp [get_icu_stays, get_lab_results, get_race_distribution, h]

/-- Claim C10 witness: a limit of 0 makes the tools return the error string
and execute nothing. -/
theorem limit_validation_rejects_and_message_mismatch_witness :
    get_icu_stays ⟨"sqlite", fun _ => ""⟩ none 0 = (limitErrMsg, [])
    ∧ get_race_distribution ⟨"sqlite", fun _ => ""⟩ 0 = (limitErrMsg, []) := by
  have h := limit_validation_rejects_and_message_mismatch
    ⟨"sqlite", fun _ => ""⟩ none none 0 (by decide)
  exact ⟨h.1, h.2.2.1⟩
